import Mathlib

/-!
Shallow embedding of `src/geotech_casestudy_2.py` (a streamlit weather bot).

Conventions of the embedding:
* Python dicts whose keys may be absent are modelled as structures of
  `Option` fields; accessing a key with `d['k']` raises `KeyError` when the
  key is absent, modelled by `Except PyErr`; `d.get('k', default)` is
  `Option.getD`.
* JSON scalar payload values (latitude, longitude, temperature, windspeed,
  winddirection, time) are never computed with by the program - they are only
  interpolated into f-strings - so they are modelled by their decimal/text
  rendering as a `String`.  Python renders `None` in an f-string as the text
  "None", modelled by `renderOpt`.
* `st.session_state` is the record `ConvState`; the integer step codes of the
  source are kept verbatim (1 = AwaitingCity, 2 = AwaitingSelection,
  3 = ShowingReport, 0 = Ended).
* Each streamlit script run performs at most one user action (a button can
  only be `True` on the run triggered by clicking it), so each button handler
  becomes one transition function from state to state plus emitted messages;
  an uncaught Python exception aborts the script run leaving the session
  state with whatever mutations happened before the raise (in this program:
  none), modelled by returning the unchanged state together with the
  exception.
-/

/-- Python exceptions that the embedded code can raise. -/
inductive PyErr where
  | keyError (key : String)
  | typeError
  | indexError
deriving Repr, DecidableEq

/-- Python `str.strip(chars)`: remove leading and trailing characters that are
members of `chars` (it never touches the interior of the string). -/
def pyStrip (chars : List Char) (s : String) : String :=
  String.mk (((s.data.dropWhile (· ∈ chars)).reverse.dropWhile (· ∈ chars)).reverse)

/-- The ASCII whitespace characters stripped by Python `str.strip()` with no
argument. -/
def pyWhitespace : List Char := [' ', '\t', '\n', '\r', '\x0b', '\x0c']

/-- Python `str.strip()` (no argument): strip whitespace at both ends. -/
def pyStripWs (s : String) : String := pyStrip pyWhitespace s

/-- Rendering of an optional payload value inside a Python f-string:
a missing value (`None`) renders as the text "None". -/
def renderOpt (v : Option String) : String := v.getD "None"

/-- One entry of the geocoding response `results` array.  `name`, `admin1`,
`country` are JSON strings; `latitude` / `longitude` are JSON numbers kept as
their textual rendering.  Every field may be absent. -/
structure GeoItem where
  name : Option String
  admin1 : Option String
  country : Option String
  latitude : Option String
  longitude : Option String
deriving Repr, DecidableEq, Inhabited

/-- The JSON body of the geocoding response: an optional `results` array. -/
structure GeoResponse where
  results : Option (List GeoItem)
deriving Repr, DecidableEq

/-- One element of the `options` list built by `validate_city`:
`{"index": idx, "label": location_str, "data": item}`. -/
structure Candidate where
  index : Nat
  label : String
  data : GeoItem
deriving Repr, DecidableEq

/-- The `current_weather` object of the weather response; each field may be
absent (the source reads them with `.get`). -/
structure CurrentWeather where
  temperature : Option String
  windspeed : Option String
  winddirection : Option String
  time : Option String
deriving Repr, DecidableEq

/-- The JSON body of the weather response: an optional `current_weather`. -/
structure WeatherResponse where
  current_weather : Option CurrentWeather
deriving Repr, DecidableEq

/-- The label built for one result item:
`f"{item['name']}, {admin}, {item['country']}".strip(', ')` -
`KeyError` if `name` or `country` is absent, `admin1` read with default "". -/
def labelOfItem (item : GeoItem) : Except PyErr String :=
  match item.name with
  | none => .error (.keyError "name")
  | some n =>
    let admin := item.admin1.getD ""
    match item.country with
    | none => .error (.keyError "country")
    | some c => .ok (pyStrip [',', ' '] (n ++ ", " ++ admin ++ ", " ++ c))

/-- The `for idx, item in enumerate(data["results"], start=1)` loop of
`validate_city`, building the `options` list. -/
def buildOptions (idx : Nat) : List GeoItem → Except PyErr (List Candidate)
  | [] => .ok []
  | item :: rest =>
    match labelOfItem item with
    | .error e => .error e
    | .ok lab =>
      match buildOptions (idx + 1) rest with
      | .error e => .error e
      | .ok opts => .ok ({ index := idx, label := lab, data := item } :: opts)

/-- Result of `validate_city`, mirroring the source's tuple returns:
`(None, msg)`, `(options, None)` with 2+ results, or `(results[0], None)`. -/
inductive VCResult where
  | invalid (msg : String)
  | multiple (options : List Candidate)
  | single (item : GeoItem)
deriving Repr, DecidableEq

/-- `validate_city` from the source, with the already-parsed JSON body of the
geocoding HTTP response supplied as the argument `data`. -/
def validate_city (data : GeoResponse) : Except PyErr VCResult :=
  match data.results with
  | none => .ok (.invalid "Invalid city name. Please try again.")
  | some results =>
    if results.isEmpty then .ok (.invalid "Invalid city name. Please try again.")
    else if results.length > 1 then
      match buildOptions 1 results with
      | .error e => .error e
      | .ok options => .ok (.multiple options)
    else
      .ok (.single (results.head!))

/-- `fetch_weather` from the source, with the parsed weather response body
supplied.  It reads `city_info['latitude']` and `city_info['longitude']`
(KeyError when missing) before inspecting the response; mirrors the tuple
returns `(None, msg)` / `(weather_data, None)`. -/
def fetch_weather (city_info : GeoItem) (weather_data : WeatherResponse) :
    Except PyErr (Option WeatherResponse × Option String) :=
  match city_info.latitude with
  | none => .error (.keyError "latitude")
  | some _ =>
    match city_info.longitude with
    | none => .error (.keyError "longitude")
    | some _ =>
      match weather_data.current_weather with
      | none => .ok (none, some "Weather data not available.")
      | some _ => .ok (some weather_data, none)

/-- `format_weather_report` from the source.  Raises `KeyError` when
`current_weather`, `name` or `country` is absent; `admin1` and the four
snapshot fields are read with `.get` (rendering "None" when missing). -/
def format_weather_report (city_info : GeoItem) (weather_data : WeatherResponse) :
    Except PyErr String :=
  match weather_data.current_weather with
  | none => .error (.keyError "current_weather")
  | some current =>
    match city_info.name with
    | none => .error (.keyError "name")
    | some n =>
      match city_info.country with
      | none => .error (.keyError "country")
      | some c =>
        .ok ("### Weather Report for " ++ n ++ ", " ++ city_info.admin1.getD "" ++ ", " ++ c
          ++ "\n\n"
          ++ "**Temperature:** " ++ renderOpt current.temperature ++ "°C  \n"
          ++ "**Windspeed:** " ++ renderOpt current.windspeed ++ " km/h  \n"
          ++ "**Wind Direction:** " ++ renderOpt current.winddirection ++ "°  \n"
          ++ "**Time:** " ++ renderOpt current.time)

/-- `generate_goodbye_message` from the source (the simulated LLM output). -/
def generate_goodbye_message : String :=
  "### Thank You!\n\n"
  ++ "Thank you for using our weather bot. We hope you have a wonderful day ahead. Goodbye!"

/-- `st.session_state`: step, city_results, selected_city, check_another_clicks. -/
structure ConvState where
  step : Int
  city_results : Option (List Candidate)
  selected_city : Option GeoItem
  check_another_clicks : Nat
deriving Repr, DecidableEq

/-- The initial session state set up by lines 89-96 of the source. -/
def initState : ConvState :=
  { step := 1, city_results := none, selected_city := none, check_another_clicks := 0 }

/-- `reset_conversation` from the source: it assigns every session field, so
as a state transformer it is the constant reset state. -/
def reset_conversation : ConvState :=
  { step := 1, city_results := none, selected_city := none, check_another_clicks := 0 }

/-- Outcome of one script run triggered by the "Submit City" button:
the session state afterwards, the `st.error` message shown (if any), and the
uncaught exception that aborted the run (if any). -/
structure SubmitResult where
  state : ConvState
  errMsg : Option String
  exn : Option PyErr
deriving Repr, DecidableEq

/-- The "Submit City" handler (source lines 102-116), run when `step == 1`.
`city_input` is the text box content, `data` the geocoding response body the
network call would produce. -/
def submitCity (s : ConvState) (city_input : String) (data : GeoResponse) : SubmitResult :=
  if pyStripWs city_input = "" then
    { state := s, errMsg := some "Please enter a valid city name.", exn := none }
  else
    match validate_city data with
    | .error e => { state := s, errMsg := none, exn := some e }
    | .ok (.invalid msg) => { state := s, errMsg := some msg, exn := none }
    | .ok (.multiple options) =>
      { state := { s with city_results := some options, step := 2 }, errMsg := none, exn := none }
    | .ok (.single item) =>
      { state := { s with selected_city := some item, step := 3 }, errMsg := none, exn := none }

/-- The "Confirm Selection" handler (source lines 119-126), run when
`step == 2`.  `selected_index` is the 0-based radio position; the radio widget
constrains it to `range(len(labels))`, but out-of-range indexing and a `None`
candidate list are modelled faithfully as exceptions. -/
def confirmSelection (s : ConvState) (selected_index : Nat) : ConvState × Option PyErr :=
  match s.city_results with
  | none => (s, some .typeError)
  | some options =>
    if h : selected_index < options.length then
      ({ s with selected_city := some (options.get ⟨selected_index, h⟩).data, step := 3 }, none)
    else (s, some .indexError)

/-- The "Check Another City" handler (source lines 141-146), run when
`step == 3`: increments the click counter; below two clicks it only shows the
confirmation prompt, otherwise it calls `reset_conversation`. -/
def checkAnotherCity (s : ConvState) : ConvState × Option String :=
  let clicks := s.check_another_clicks + 1
  if clicks < 2 then
    ({ s with check_another_clicks := clicks },
      some "Please click 'Check Another City' again to confirm resetting the conversation.")
  else (reset_conversation, none)

/-- The "End Conversation" handler (source lines 147-150), run when
`step == 3`: shows the goodbye message and sets step to 0. -/
def endConversation (s : ConvState) : ConvState × String :=
  ({ s with step := 0 }, generate_goodbye_message)

/-- Outcome of the step-3 display block (source lines 129-136): session state
(untouched by the block), the `st.error` message, the rendered report body,
and any uncaught exception.  `weather_data` is the weather response body the
network call would produce. -/
structure RenderResult where
  state : ConvState
  errMsg : Option String
  report : Option String
  exn : Option PyErr
deriving Repr, DecidableEq

/-- The step-3 fetch-and-display block (source lines 129-136). -/
def showReport (s : ConvState) (weather_data : WeatherResponse) : RenderResult :=
  match s.selected_city with
  | none => { state := s, errMsg := none, report := none, exn := some .typeError }
  | some city_info =>
    match fetch_weather city_info weather_data with
    | .error e => { state := s, errMsg := none, report := none, exn := some e }
    | .ok (_, some msg) => { state := s, errMsg := some msg, report := none, exn := none }
    | .ok (some wd, none) =>
      match format_weather_report city_info wd with
      | .error e => { state := s, errMsg := none, report := none, exn := some e }
      | .ok rep => { state := s, errMsg := none, report := some rep, exn := none }
    | .ok (none, none) => { state := s, errMsg := none, report := none, exn := some .typeError }

/-- States reachable from the initial session state through the user actions
the UI offers: submit a city (step 1), confirm a selection (step 2), click
"Check Another City" or "End Conversation" (step 3).  The step-3 display
block never mutates the state, so it adds no edge. -/
inductive Reachable : ConvState → Prop where
  | init : Reachable initState
  | submit {s : ConvState} (city_input : String) (data : GeoResponse) :
      Reachable s → s.step = 1 → Reachable (submitCity s city_input data).state
  | confirm {s : ConvState} (selected_index : Nat) :
      Reachable s → s.step = 2 → Reachable (confirmSelection s selected_index).1
  | check {s : ConvState} :
      Reachable s → s.step = 3 → Reachable (checkAnotherCity s).1
  | finish {s : ConvState} :
      Reachable s → s.step = 3 → Reachable (endConversation s).1

deriving instance DecidableEq for Except

/-- Concrete geocoding result: Paris with an empty `admin1` region. -/
def parisItem : GeoItem :=
  { name := some "Paris", admin1 := some "", country := some "France",
    latitude := some "48.85", longitude := some "2.35" }

/-- Concrete geocoding result: Springfield, Illinois, United States. -/
def springfieldItem : GeoItem :=
  { name := some "Springfield", admin1 := some "Illinois", country := some "United States",
    latitude := some "39.8", longitude := some "-89.65" }

/-- A two-result geocoding response (Paris first, Springfield second). -/
def parisFranceResponse : GeoResponse := { results := some [parisItem, springfieldItem] }

/-- A result object that is missing the expected `country` field. -/
def noCountryItem : GeoItem :=
  { name := some "Paris", admin1 := some "Texas", country := none,
    latitude := some "33.66", longitude := some "-95.55" }

/-- A two-result geocoding response whose second result lacks `country`. -/
def badFieldResponse : GeoResponse := { results := some [parisItem, noCountryItem] }

/-- A session state sitting at step 3 (ShowingReport) with Paris selected. -/
def demoReportState : ConvState :=
  { step := 3, city_results := none, selected_city := some parisItem, check_another_clicks := 0 }

/-- A `current_weather` object with every optional field absent. -/
def allMissingWeather : CurrentWeather :=
  { temperature := none, windspeed := none, winddirection := none, time := none }

/-- Auxiliary invariant on session states, strong enough to be inductive over
the transitions: step 1 and step 2 have no selected city, step 2 carries at
least two candidates, step 3 has a selected city. -/
def StateInv (s : ConvState) : Prop :=
  (s.step = 1 → s.selected_city = none) ∧
  (s.step = 2 → s.selected_city = none ∧ ∃ opts, s.city_results = some opts ∧ 2 ≤ opts.length) ∧
  (s.step = 3 → s.selected_city ≠ none)

/-- The options list built by the enumeration loop has one entry per result. -/
lemma buildOptions_length {i : Nat} {rs : List GeoItem} {opts : List Candidate}
    (h : buildOptions i rs = .ok opts) : opts.length = rs.length := by
  induction rs generalizing i opts with
  | nil => simp [buildOptions] at h; simp [← h]
  | cons item rest ih =>
    simp only [buildOptions] at h
    cases hl : labelOfItem item with
    | error e => rw [hl] at h; exact absurd h (by simp)
    | ok lab =>
      rw [hl] at h
      cases hb : buildOptions (i + 1) rest with
      | error e => rw [hb] at h; exact absurd h (by simp)
      | ok opts' =>
        rw [hb] at h
        simp only [Except.ok.injEq] at h
        subst h
        simp [ih hb]

/-- Entry `j` of the options list carries index `i + j`, the label built for
result `j`, and result `j` itself as its data. -/
lemma buildOptions_get? {i : Nat} {rs : List GeoItem} {opts : List Candidate}
    (h : buildOptions i rs = .ok opts) :
    ∀ j item, rs.get? j = some item →
      ∃ lab, labelOfItem item = .ok lab ∧ opts.get? j = some ⟨i + j, lab, item⟩ := by
  induction rs generalizing i opts with
  | nil => intro j item hj; simp at hj
  | cons hd rest ih =>
    intro j item hj
    simp only [buildOptions] at h
    cases hl : labelOfItem hd with
    | error e => rw [hl] at h; exact absurd h (by simp)
    | ok lab =>
      rw [hl] at h
      cases hb : buildOptions (i + 1) rest with
      | error e => rw [hb] at h; exact absurd h (by simp)
      | ok opts' =>
        rw [hb] at h
        simp only [Except.ok.injEq] at h
        subst h
        cases j with
        | zero =>
          simp at hj
          subst hj
          exact ⟨lab, hl, by simp⟩
        | succ j' =>
          simp only [List.get?] at hj
          obtain ⟨lab', hlab', hopt⟩ := ih hb j' item hj
          refine ⟨lab', hlab', ?_⟩
          simpa [Nat.add_assoc, Nat.add_comm 1 j'] using hopt

/-- When every result carries `name` and `country`, the enumeration loop
raises no exception. -/
lemma buildOptions_isOk {i : Nat} {rs : List GeoItem}
    (hfields : ∀ it ∈ rs, it.name.isSome ∧ it.country.isSome) :
    ∃ opts, buildOptions i rs = .ok opts := by
  induction rs generalizing i with
  | nil => exact ⟨[], rfl⟩
  | cons hd rest ih =>
    obtain ⟨hn, hc⟩ := hfields hd (List.mem_cons_self hd rest)
    obtain ⟨n, hn'⟩ := Option.isSome_iff_exists.mp hn
    obtain ⟨c, hc'⟩ := Option.isSome_iff_exists.mp hc
    obtain ⟨opts, hopts⟩ := ih (i := i + 1) (fun it hit => hfields it (List.mem_cons_of_mem hd hit))
    exact ⟨{ index := i, label := pyStrip [',', ' '] (n ++ ", " ++ hd.admin1.getD "" ++ ", " ++ c),
             data := hd } :: opts,
      by simp only [buildOptions, labelOfItem, hn', hc', hopts]⟩

/-- A response with 2+ well-formed results makes `validate_city` return the
multiple-candidates outcome. -/
lemma validate_city_multiple {data : GeoResponse} {rs : List GeoItem}
    (hres : data.results = some rs) (hlen : 2 ≤ rs.length)
    (hfields : ∀ it ∈ rs, it.name.isSome ∧ it.country.isSome) :
    ∃ opts, validate_city data = .ok (.multiple opts) ∧ buildOptions 1 rs = .ok opts := by
  obtain ⟨opts, hopts⟩ := buildOptions_isOk (i := 1) hfields
  refine ⟨opts, ?_, hopts⟩
  have hne : ¬ rs.isEmpty = true := by
    cases rs with
    | nil => simp at hlen
    | cons a b => simp
  have hgt : rs.length > 1 := hlen
  simp only [validate_city, hres]
  rw [if_neg hne, if_pos hgt, hopts]

/-- Inversion: the multiple-candidates outcome only arises from a response
with 2+ results, and the options come from the enumeration loop. -/
lemma validate_city_multiple_inv {data : GeoResponse} {opts : List Candidate}
    (h : validate_city data = .ok (.multiple opts)) :
    ∃ rs, data.results = some rs ∧ rs.length > 1 ∧ buildOptions 1 rs = .ok opts := by
  cases hres : data.results with
  | none => simp only [validate_city, hres] at h; exact absurd h (by simp)
  | some rs =>
    simp only [validate_city, hres] at h
    by_cases he : rs.isEmpty = true
    · rw [if_pos he] at h; exact absurd h (by simp)
    · rw [if_neg he] at h
      by_cases hl : rs.length > 1
      · rw [if_pos hl] at h
        cases hb : buildOptions 1 rs with
        | error e => rw [hb] at h; exact absurd h (by simp)
        | ok opts' =>
          rw [hb] at h
          simp only [Except.ok.injEq, VCResult.multiple.injEq] at h
          subst h
          exact ⟨rs, rfl, hl, hb⟩
      · rw [if_neg hl] at h; exact absurd h (by simp)

/-- A multiple-candidates outcome always has at least two candidates. -/
lemma validate_city_multiple_length {data : GeoResponse} {opts : List Candidate}
    (h : validate_city data = .ok (.multiple opts)) : 2 ≤ opts.length := by
  obtain ⟨rs, _, hl, hb⟩ := validate_city_multiple_inv h
  rw [buildOptions_length hb]
  omega

/-- `StateInv` holds in the initial state and is preserved by every
transition, hence holds in every reachable state. -/
lemma reachable_StateInv {s : ConvState} (h : Reachable s) : StateInv s := by
  induction h with
  | init =>
    exact ⟨fun _ => rfl, fun h2 => by simp [initState] at h2, fun h3 => by simp [initState] at h3⟩
  | submit city_input data hr hstep ih =>
    unfold submitCity
    by_cases hb : pyStripWs city_input = ""
    · rw [if_pos hb]; exact ih
    · rw [if_neg hb]
      cases hv : validate_city data with
      | error e => exact ih
      | ok r =>
        cases r with
        | invalid msg => exact ih
        | multiple opts =>
          refine ⟨fun h1 => by simp at h1, fun _ => ?_, fun h3 => by simp at h3⟩
          exact ⟨ih.1 hstep, opts, rfl, validate_city_multiple_length hv⟩
        | single item =>
          exact ⟨fun h1 => by simp at h1, fun h2 => by simp at h2, fun _ => by simp⟩
  | confirm idx hr hstep ih =>
    unfold confirmSelection
    split
    · exact ih
    · split
      · exact ⟨fun h1 => by simp at h1, fun h2 => by simp at h2, fun _ => by simp⟩
      · exact ih
  | check hr hstep ih =>
    rename_i t
    simp only [checkAnotherCity]
    by_cases hc : t.check_another_clicks + 1 < 2
    · rw [if_pos hc]
      refine ⟨fun h1 => ?_, fun h2 => ?_, fun _ => ih.2.2 hstep⟩
      · rw [hstep] at h1; exact absurd h1 (by decide)
      · rw [hstep] at h2; exact absurd h2 (by decide)
    · rw [if_neg hc]
      exact ⟨fun _ => rfl, fun h2 => by simp [reset_conversation] at h2,
        fun h3 => by simp [reset_conversation] at h3⟩
  | finish hr hstep ih =>
    exact ⟨fun h1 => by simp [endConversation] at h1, fun h2 => by simp [endConversation] at h2,
      fun h3 => by simp [endConversation] at h3⟩

/-- C1 counterexample: for the two-result response with name="Paris",
admin1="", country="France" first, the produced label is exactly
"Paris, , France" - the inner ", ," from the empty admin1 is NOT removed -
which differs from the claimed "Paris, France". -/
theorem candidate_label_paris_counterexample :
    validate_city parisFranceResponse =
      .ok (.multiple
        [⟨1, "Paris, , France", parisItem⟩,
         ⟨2, "Springfield, Illinois, United States", springfieldItem⟩]) ∧
    ("Paris, , France" : String) ≠ "Paris, France" := by decide

/-- C1 (amended): for every geocoding result set with 2 or more entries, each
candidate's label is built as "{name}, {admin1}, {country}" with only LEADING
and TRAILING commas and spaces stripped (Python `strip(', ')` never touches
the interior), so an empty admin1 leaves the inner ", ," in place: Paris with
empty admin1 gives exactly "Paris, , France", while Springfield, Illinois,
United States gives exactly "Springfield, Illinois, United States". -/
theorem candidate_label_only_outer_strip (data : GeoResponse) (rs : List GeoItem)
    (hres : data.results = some rs) (hlen : 2 ≤ rs.length)
    (hfields : ∀ it ∈ rs, it.name.isSome ∧ it.country.isSome) :
    (∃ opts, validate_city data = .ok (.multiple opts) ∧
      ∀ j item, rs.get? j = some item →
        opts.get? j = some ⟨j + 1,
          pyStrip [',', ' ']
            (item.name.getD "" ++ ", " ++ item.admin1.getD "" ++ ", " ++ item.country.getD ""),
          item⟩) ∧
    labelOfItem parisItem = .ok "Paris, , France" ∧
    labelOfItem springfieldItem = .ok "Springfield, Illinois, United States" := by
  refine ⟨?_, by decide, by decide⟩
  obtain ⟨opts, hval, hbuild⟩ := validate_city_multiple hres hlen hfields
  refine ⟨opts, hval, ?_⟩
  intro j item hj
  obtain ⟨lab, hlab, hopt⟩ := buildOptions_get? hbuild j item hj
  obtain ⟨hn, hc⟩ := hfields item (List.get?_mem hj)
  obtain ⟨n, hn'⟩ := Option.isSome_iff_exists.mp hn
  obtain ⟨c, hc'⟩ := Option.isSome_iff_exists.mp hc
  have hlabeq : lab = pyStrip [',', ' '] (n ++ ", " ++ item.admin1.getD "" ++ ", " ++ c) := by
    simp only [labelOfItem, hn', hc'] at hlab
    exact (Except.ok.inj hlab).symm
  rw [hn', hc']
  simpa [Option.getD, hlabeq, Nat.add_comm] using hopt

/-- C1 witness: the amended label theorem instantiated on the concrete
Paris/Springfield response. -/
theorem candidate_label_only_outer_strip_witness :
    parisFranceResponse.results = some [parisItem, springfieldItem] ∧
    2 ≤ ([parisItem, springfieldItem] : List GeoItem).length ∧
    ((∃ opts, validate_city parisFranceResponse = .ok (.multiple opts) ∧
      ∀ j item, ([parisItem, springfieldItem] : List GeoItem).get? j = some item →
        opts.get? j = some ⟨j + 1,
          pyStrip [',', ' ']
            (item.name.getD "" ++ ", " ++ item.admin1.getD "" ++ ", " ++ item.country.getD ""),
          item⟩) ∧
    labelOfItem parisItem = .ok "Paris, , France" ∧
    labelOfItem springfieldItem = .ok "Springfield, Illinois, United States") :=
  ⟨rfl, by decide,
    candidate_label_only_outer_strip parisFranceResponse [parisItem, springfieldItem]
      rfl (by decide) (by decide)⟩

/-- C2: in every state reachable from the initial conversation state through
the defined transitions, step=AwaitingSelection (2) implies the pending
candidate list is present with at least 2 entries and no city is selected,
and step=ShowingReport (3) implies a city is selected. -/
theorem reachable_conversation_invariants (s : ConvState) (h : Reachable s) :
    (s.step = 2 → (∃ opts, s.city_results = some opts ∧ 2 ≤ opts.length) ∧
      s.selected_city = none) ∧
    (s.step = 3 → s.selected_city ≠ none) := by
  have hi := reachable_StateInv h
  exact ⟨fun h2 => ⟨(hi.2.1 h2).2, (hi.2.1 h2).1⟩, hi.2.2⟩

/-- C2 witness: the invariants instantiated on the reachable state produced
by submitting "Paris" against the two-result response. -/
theorem reachable_conversation_invariants_witness :
    ((submitCity initState "Paris" parisFranceResponse).state.step = 2 →
      (∃ opts, (submitCity initState "Paris" parisFranceResponse).state.city_results = some opts ∧
        2 ≤ opts.length) ∧
      (submitCity initState "Paris" parisFranceResponse).state.selected_city = none) ∧
    ((submitCity initState "Paris" parisFranceResponse).state.step = 3 →
      (submitCity initState "Paris" parisFranceResponse).state.selected_city ≠ none) :=
  reachable_conversation_invariants _
    (Reachable.submit "Paris" parisFranceResponse Reachable.init rfl)

/-- C3: from step 3 (ShowingReport) with a zero click counter, the first
"Check Another City" click only sets the counter to 1 (step and all other
fields unchanged); the second consecutive click performs the full reset:
step=1 (AwaitingCity), no pending candidates, no selected city, counter 0. -/
theorem check_another_city_two_click_reset (s : ConvState)
    (hstep : s.step = 3) (hclicks : s.check_another_clicks = 0) :
    (checkAnotherCity s).1 = { s with check_another_clicks := 1 } ∧
    (checkAnotherCity s).1.step = 3 ∧
    (checkAnotherCity (checkAnotherCity s).1).1 = reset_conversation ∧
    reset_conversation =
      { step := 1, city_results := none, selected_city := none, check_another_clicks := 0 } := by
  refine ⟨?_, ?_, ?_, rfl⟩
  · simp [checkAnotherCity, hclicks]
  · simp [checkAnotherCity, hclicks, hstep]
  · simp [checkAnotherCity, hclicks]

/-- C3 witness: the double-click behaviour instantiated on the concrete
step-3 state with Paris selected. -/
theorem check_another_city_two_click_reset_witness :
    demoReportState.step = 3 ∧ demoReportState.check_another_clicks = 0 ∧
    ((checkAnotherCity demoReportState).1 = { demoReportState with check_another_clicks := 1 } ∧
     (checkAnotherCity demoReportState).1.step = 3 ∧
     (checkAnotherCity (checkAnotherCity demoReportState).1).1 = reset_conversation ∧
     reset_conversation =
       { step := 1, city_results := none, selected_city := none, check_another_clicks := 0 }) :=
  ⟨rfl, rfl, check_another_city_two_click_reset demoReportState rfl rfl⟩

/-- C4 counterexample: for a two-result payload whose second result lacks the
`country` field, `validate_city` raises an uncaught KeyError: the submit run
surfaces NO user-facing error message (`errMsg = none`) and aborts with the
exception, contradicting "surfaced verbatim as a user-facing message" and
"the process does not crash" (the state does remain unchanged). -/
theorem upstream_parse_failure_counterexample :
    validate_city badFieldResponse = .error (.keyError "country") ∧
    submitCity initState "Paris" badFieldResponse =
      { state := initState, errMsg := none, exn := some (.keyError "country") } := by decide

/-- C4 (amended): when the geocoding payload cannot be interpreted (a present
result object missing an expected field in a multi-result payload),
`validate_city` raises an uncaught exception (KeyError); the submit run
aborts with that exception and NO user-facing error message, while the
conversation state is left unchanged (step stays AwaitingCity). -/
theorem upstream_parse_failure_raises (s : ConvState) (city_input : String)
    (data : GeoResponse) (e : PyErr)
    (hin : ¬ pyStripWs city_input = "") (herr : validate_city data = .error e) :
    submitCity s city_input data = { state := s, errMsg := none, exn := some e } := by
  simp [submitCity, hin, herr]

/-- C4 witness: the amended crash behaviour instantiated on the concrete
payload missing `country`. -/
theorem upstream_parse_failure_raises_witness :
    ¬ pyStripWs "Paris" = "" ∧
    validate_city badFieldResponse = .error (.keyError "country") ∧
    submitCity initState "Paris" badFieldResponse =
      { state := initState, errMsg := none, exn := some (.keyError "country") } :=
  ⟨by decide, by decide,
    upstream_parse_failure_raises initState "Paris" badFieldResponse (.keyError "country")
      (by decide) (by decide)⟩

/-- C5: for every geocoding response with N >= 2 well-formed results, the
candidate sequence preserves upstream order (entry j wraps result j), the
indices are exactly 1..N (entry j carries index j+1), and confirming
candidate k (1-based; radio position k-1) sets selectedLocation to the k-th
upstream result and moves to step 3. -/
theorem candidate_order_indices_selection (data : GeoResponse) (rs : List GeoItem)
    (hres : data.results = some rs) (hlen : 2 ≤ rs.length)
    (hfields : ∀ it ∈ rs, it.name.isSome ∧ it.country.isSome) :
    ∃ opts, validate_city data = .ok (.multiple opts) ∧
      opts.length = rs.length ∧
      (∀ j item, rs.get? j = some item → ∃ lab, opts.get? j = some ⟨j + 1, lab, item⟩) ∧
      (∀ s : ConvState, s.city_results = some opts →
        ∀ k item, 1 ≤ k → rs.get? (k - 1) = some item →
          (confirmSelection s (k - 1)).1.selected_city = some item ∧
          (confirmSelection s (k - 1)).1.step = 3) := by
  obtain ⟨opts, hval, hbuild⟩ := validate_city_multiple hres hlen hfields
  refine ⟨opts, hval, buildOptions_length hbuild, ?_, ?_⟩
  · intro j item hj
    obtain ⟨lab, _, hopt⟩ := buildOptions_get? hbuild j item hj
    exact ⟨lab, by simpa [Nat.add_comm] using hopt⟩
  · intro s hcr k item hk hkr
    obtain ⟨lab, _, hopt⟩ := buildOptions_get? hbuild (k - 1) item hkr
    have hlt : k - 1 < opts.length := (List.get?_eq_some.mp hopt).1
    have hg : opts.get ⟨k - 1, hlt⟩ = ⟨1 + (k - 1), lab, item⟩ :=
      Option.some.inj ((List.get?_eq_get hlt).symm.trans hopt)
    unfold confirmSelection
    simp only [hcr]
    rw [dif_pos hlt]
    simp only [List.get_eq_getElem] at hg
    simp [hg]

/-- C5 witness: order, indices and selection instantiated on the concrete
Paris/Springfield response. -/
theorem candidate_order_indices_selection_witness :
    parisFranceResponse.results = some [parisItem, springfieldItem] ∧
    2 ≤ ([parisItem, springfieldItem] : List GeoItem).length ∧
    (∃ opts, validate_city parisFranceResponse = .ok (.multiple opts) ∧
      opts.length = ([parisItem, springfieldItem] : List GeoItem).length ∧
      (∀ j item, ([parisItem, springfieldItem] : List GeoItem).get? j = some item →
        ∃ lab, opts.get? j = some ⟨j + 1, lab, item⟩) ∧
      (∀ s : ConvState, s.city_results = some opts →
        ∀ k item, 1 ≤ k → ([parisItem, springfieldItem] : List GeoItem).get? (k - 1) = some item →
          (confirmSelection s (k - 1)).1.selected_city = some item ∧
          (confirmSelection s (k - 1)).1.step = 3)) :=
  ⟨rfl, by decide,
    candidate_order_indices_selection parisFranceResponse [parisItem, springfieldItem]
      rfl (by decide) (by decide)⟩

/-- C6: for every blank or whitespace-only city input, the submit handler
produces the validation error and leaves the whole state unchanged, and its
result does not depend on the geocoding response at all (the resolver's
answer is irrelevant because it is never consulted). -/
theorem blank_input_no_resolver_call (s : ConvState) (city_input : String) (data : GeoResponse)
    (hblank : pyStripWs city_input = "") :
    submitCity s city_input data =
      { state := s, errMsg := some "Please enter a valid city name.", exn := none } := by
  simp [submitCity, hblank]

/-- C6 witness: the blank-input behaviour instantiated on a whitespace-only
input, against a response that would otherwise produce candidates. -/
theorem blank_input_no_resolver_call_witness :
    pyStripWs "  \t " = "" ∧
    submitCity initState "  \t " parisFranceResponse =
      { state := initState, errMsg := some "Please enter a valid city name.", exn := none } :=
  ⟨by decide, blank_input_no_resolver_call initState "  \t " parisFranceResponse (by decide)⟩

/-- C7: when the geocoding response has an empty `results` list or no
`results` key, submitting a non-blank city yields the NotFound message
"Invalid city name. Please try again.", the state is unchanged, step remains
1 (AwaitingCity), and the pending candidate list stays empty. -/
theorem empty_results_not_found (s : ConvState) (city_input : String) (data : GeoResponse)
    (hin : ¬ pyStripWs city_input = "")
    (hres : data.results = none ∨ data.results = some [])
    (hstep : s.step = 1) (hcand : s.city_results = none) :
    submitCity s city_input data =
      { state := s, errMsg := some "Invalid city name. Please try again.", exn := none } ∧
    (submitCity s city_input data).state.step = 1 ∧
    (submitCity s city_input data).state.city_results = none := by
  have hval : validate_city data = .ok (.invalid "Invalid city name. Please try again.") := by
    rcases hres with h | h <;> simp [validate_city, h]
  refine ⟨?_, ?_, ?_⟩ <;> simp [submitCity, hin, hval, hstep, hcand]

/-- C7 witness: the empty-results behaviour instantiated on the empty-list
response from the initial state. -/
theorem empty_results_not_found_witness :
    ¬ pyStripWs "Atlantis" = "" ∧
    (({ results := some [] } : GeoResponse).results = none ∨
      ({ results := some [] } : GeoResponse).results = some []) ∧
    initState.step = 1 ∧ initState.city_results = none ∧
    (submitCity initState "Atlantis" { results := some [] } =
      { state := initState, errMsg := some "Invalid city name. Please try again.", exn := none } ∧
    (submitCity initState "Atlantis" { results := some [] }).state.step = 1 ∧
    (submitCity initState "Atlantis" { results := some [] }).state.city_results = none) :=
  ⟨by decide, Or.inr rfl, rfl, rfl,
    empty_results_not_found initState "Atlantis" { results := some [] }
      (by decide) (Or.inr rfl) rfl rfl⟩

/-- C8: when the weather response lacks `current_weather`, `fetch_weather`
returns the "Weather data not available." error, and the step-3 block
surfaces exactly that message, renders no report body, and leaves the state
(in particular step = 3, ShowingReport) unchanged. -/
theorem missing_current_weather_keeps_report_step (s : ConvState) (ci : GeoItem)
    (w : WeatherResponse)
    (hstep : s.step = 3) (hsel : s.selected_city = some ci)
    (hlat : ci.latitude.isSome) (hlon : ci.longitude.isSome)
    (hcw : w.current_weather = none) :
    fetch_weather ci w = .ok (none, some "Weather data not available.") ∧
    showReport s w =
      { state := s, errMsg := some "Weather data not available.", report := none, exn := none } ∧
    (showReport s w).state.step = 3 := by
  obtain ⟨la, hla⟩ := Option.isSome_iff_exists.mp hlat
  obtain ⟨lo, hlo⟩ := Option.isSome_iff_exists.mp hlon
  have hf : fetch_weather ci w = .ok (none, some "Weather data not available.") := by
    simp [fetch_weather, hla, hlo, hcw]
  refine ⟨hf, ?_, ?_⟩ <;> simp [showReport, hsel, hf, hstep]

/-- C8 witness: the missing-`current_weather` behaviour instantiated on the
concrete step-3 state with Paris selected. -/
theorem missing_current_weather_keeps_report_step_witness :
    demoReportState.step = 3 ∧ demoReportState.selected_city = some parisItem ∧
    parisItem.latitude.isSome ∧ parisItem.longitude.isSome ∧
    ({ current_weather := none } : WeatherResponse).current_weather = none ∧
    (fetch_weather parisItem { current_weather := none } =
      .ok (none, some "Weather data not available.") ∧
    showReport demoReportState { current_weather := none } =
      { state := demoReportState, errMsg := some "Weather data not available.",
        report := none, exn := none } ∧
    (showReport demoReportState { current_weather := none }).state.step = 3) :=
  ⟨rfl, rfl, by decide, by decide, rfl,
    missing_current_weather_keeps_report_step demoReportState parisItem { current_weather := none }
      rfl rfl (by decide) (by decide) rfl⟩

/-- C9: for every location with `name`/`country` present and every
`current_weather` payload, the formatter succeeds (no crash) and produces the
full five-line report with each optional field rendered through `renderOpt`
(so a missing field renders as the explicit "None" placeholder); moreover,
whenever temperature, windspeed, winddirection or time is missing, the
corresponding line is still present, carrying the "None" marker. -/
theorem formatter_renders_missing_fields (ci : GeoItem) (n c : String) (cw : CurrentWeather)
    (hn : ci.name = some n) (hc : ci.country = some c) :
    format_weather_report ci { current_weather := some cw } =
      .ok ("### Weather Report for " ++ n ++ ", " ++ ci.admin1.getD "" ++ ", " ++ c ++ "\n\n"
        ++ "**Temperature:** " ++ renderOpt cw.temperature ++ "°C  \n"
        ++ "**Windspeed:** " ++ renderOpt cw.windspeed ++ " km/h  \n"
        ++ "**Wind Direction:** " ++ renderOpt cw.winddirection ++ "°  \n"
        ++ "**Time:** " ++ renderOpt cw.time) ∧
    (cw.temperature = none →
      ∃ pre post, format_weather_report ci { current_weather := some cw } =
        .ok (pre ++ "**Temperature:** None°C  \n" ++ post)) ∧
    (cw.windspeed = none →
      ∃ pre post, format_weather_report ci { current_weather := some cw } =
        .ok (pre ++ "**Windspeed:** None km/h  \n" ++ post)) ∧
    (cw.winddirection = none →
      ∃ pre post, format_weather_report ci { current_weather := some cw } =
        .ok (pre ++ "**Wind Direction:** None°  \n" ++ post)) ∧
    (cw.time = none →
      ∃ pre, format_weather_report ci { current_weather := some cw } =
        .ok (pre ++ "**Time:** None")) := by
  have hrn : renderOpt none = "None" := rfl
  have hfmt : format_weather_report ci { current_weather := some cw } =
      .ok ("### Weather Report for " ++ n ++ ", " ++ ci.admin1.getD "" ++ ", " ++ c ++ "\n\n"
        ++ "**Temperature:** " ++ renderOpt cw.temperature ++ "°C  \n"
        ++ "**Windspeed:** " ++ renderOpt cw.windspeed ++ " km/h  \n"
        ++ "**Wind Direction:** " ++ renderOpt cw.winddirection ++ "°  \n"
        ++ "**Time:** " ++ renderOpt cw.time) := by
    simp only [format_weather_report, hn, hc]
  refine ⟨hfmt, fun ht => ?_, fun hw => ?_, fun hd => ?_, fun htime => ?_⟩
  · refine ⟨"### Weather Report for " ++ n ++ ", " ++ ci.admin1.getD "" ++ ", " ++ c ++ "\n\n",
      "**Windspeed:** " ++ renderOpt cw.windspeed ++ " km/h  \n"
        ++ "**Wind Direction:** " ++ renderOpt cw.winddirection ++ "°  \n"
        ++ "**Time:** " ++ renderOpt cw.time, ?_⟩
    rw [hfmt, ht, hrn,
      show ("**Temperature:** None°C  \n" : String) = "**Temperature:** " ++ "None" ++ "°C  \n"
        from rfl]
    simp only [String.append_assoc]
  · refine ⟨"### Weather Report for " ++ n ++ ", " ++ ci.admin1.getD "" ++ ", " ++ c ++ "\n\n"
        ++ "**Temperature:** " ++ renderOpt cw.temperature ++ "°C  \n",
      "**Wind Direction:** " ++ renderOpt cw.winddirection ++ "°  \n"
        ++ "**Time:** " ++ renderOpt cw.time, ?_⟩
    rw [hfmt, hw, hrn,
      show ("**Windspeed:** None km/h  \n" : String) = "**Windspeed:** " ++ "None" ++ " km/h  \n"
        from rfl]
    simp only [String.append_assoc]
  · refine ⟨"### Weather Report for " ++ n ++ ", " ++ ci.admin1.getD "" ++ ", " ++ c ++ "\n\n"
        ++ "**Temperature:** " ++ renderOpt cw.temperature ++ "°C  \n"
        ++ "**Windspeed:** " ++ renderOpt cw.windspeed ++ " km/h  \n",
      "**Time:** " ++ renderOpt cw.time, ?_⟩
    rw [hfmt, hd, hrn,
      show ("**Wind Direction:** None°  \n" : String) = "**Wind Direction:** " ++ "None" ++ "°  \n"
        from rfl]
    simp only [String.append_assoc]
  · refine ⟨"### Weather Report for " ++ n ++ ", " ++ ci.admin1.getD "" ++ ", " ++ c ++ "\n\n"
        ++ "**Temperature:** " ++ renderOpt cw.temperature ++ "°C  \n"
        ++ "**Windspeed:** " ++ renderOpt cw.windspeed ++ " km/h  \n"
        ++ "**Wind Direction:** " ++ renderOpt cw.winddirection ++ "°  \n", ?_⟩
    rw [hfmt, htime, hrn,
      show ("**Time:** None" : String) = "**Time:** " ++ "None" from rfl]
    simp only [String.append_assoc]

/-- C9 witness: the formatter instantiated on Paris and a snapshot with every
optional field missing. -/
theorem formatter_renders_missing_fields_witness :
    parisItem.name = some "Paris" ∧ parisItem.country = some "France" ∧
    (format_weather_report parisItem { current_weather := some allMissingWeather } =
      .ok ("### Weather Report for " ++ "Paris" ++ ", " ++ parisItem.admin1.getD "" ++ ", "
        ++ "France" ++ "\n\n"
        ++ "**Temperature:** " ++ renderOpt allMissingWeather.temperature ++ "°C  \n"
        ++ "**Windspeed:** " ++ renderOpt allMissingWeather.windspeed ++ " km/h  \n"
        ++ "**Wind Direction:** " ++ renderOpt allMissingWeather.winddirection ++ "°  \n"
        ++ "**Time:** " ++ renderOpt allMissingWeather.time) ∧
    (allMissingWeather.temperature = none →
      ∃ pre post, format_weather_report parisItem { current_weather := some allMissingWeather } =
        .ok (pre ++ "**Temperature:** None°C  \n" ++ post)) ∧
    (allMissingWeather.windspeed = none →
      ∃ pre post, format_weather_report parisItem { current_weather := some allMissingWeather } =
        .ok (pre ++ "**Windspeed:** None km/h  \n" ++ post)) ∧
    (allMissingWeather.winddirection = none →
      ∃ pre post, format_weather_report parisItem { current_weather := some allMissingWeather } =
        .ok (pre ++ "**Wind Direction:** None°  \n" ++ post)) ∧
    (allMissingWeather.time = none →
      ∃ pre, format_weather_report parisItem { current_weather := some allMissingWeather } =
        .ok (pre ++ "**Time:** None"))) :=
  ⟨rfl, rfl,
    formatter_renders_missing_fields parisItem "Paris" "France" allMissingWeather rfl rfl⟩

/-- C10: for every location with an empty (or absent) admin1 field, the report
header produced by `format_weather_report` renders the location as
"{name}, , {country}" with the inner dangling ", ," left in place - the
report header applies no separator stripping. -/
theorem report_header_keeps_dangling_commas (ci : GeoItem) (n c : String) (cw : CurrentWeather)
    (hn : ci.name = some n) (hc : ci.country = some c) (hadmin : ci.admin1.getD "" = "") :
    ∃ body, format_weather_report ci { current_weather := some cw } =
      .ok ("### Weather Report for " ++ n ++ ", , " ++ c ++ "\n\n" ++ body) := by
  refine ⟨"**Temperature:** " ++ renderOpt cw.temperature ++ "°C  \n"
      ++ "**Windspeed:** " ++ renderOpt cw.windspeed ++ " km/h  \n"
      ++ "**Wind Direction:** " ++ renderOpt cw.winddirection ++ "°  \n"
      ++ "**Time:** " ++ renderOpt cw.time, ?_⟩
  simp only [format_weather_report, hn, hc]
  rw [hadmin, show (", , " : String) = ", " ++ "" ++ ", " from rfl]
  simp only [String.append_assoc]

/-- C10 witness: the dangling-comma header instantiated on Paris, whose
admin1 is the empty string. -/
theorem report_header_keeps_dangling_commas_witness :
    parisItem.name = some "Paris" ∧ parisItem.country = some "France" ∧
    parisItem.admin1.getD "" = "" ∧
    (∃ body, format_weather_report parisItem { current_weather := some allMissingWeather } =
      .ok ("### Weather Report for " ++ "Paris" ++ ", , " ++ "France" ++ "\n\n" ++ body)) :=
  ⟨rfl, rfl, rfl,
    report_header_keeps_dangling_commas parisItem "Paris" "France" allMissingWeather rfl rfl rfl⟩
